import Mathlib

/-!
Verification of the access-control backend (FastAPI + SQLAlchemy sources:
main.py, models.py, seed_db.py) against its natural-language specification.

The database is embedded as lists of rows; SQLAlchemy query
`filter(...).first()` becomes `List.find?`, row insertion becomes list
append.  `json.dumps(payload, sort_keys=True)` is embedded faithfully,
including Python's ensure_ascii escaping and the default item/key
separators.  Ed25519 signing is an external library call in the source, so
it is a function parameter `sign : String → String → List Nat` (private key,
message ↦ 64 signature bytes); key generation likewise is a parameter
`gen : String → String × String` (community ↦ (public, private) base64
strings).  Timestamps are seconds as `Nat`; `datetime.utcnow()` is a `now`
parameter.
-/

set_option maxRecDepth 100000

namespace ACB

/-- JSON values occurring in the token payload: strings and integers. -/
inductive JVal where
  | jstr (s : String)
  | jint (n : Int)
deriving Repr, DecidableEq

/-- Lowercase hex digit, as Python's json module emits in escapes. -/
def hexDigit (n : Nat) : Char :=
  if n < 10 then Char.ofNat (48 + n) else Char.ofNat (87 + n)

/-- Four lowercase hex digits of a value below 0x10000. -/
def hex4 (n : Nat) : String :=
  String.mk [hexDigit (n / 4096 % 16), hexDigit (n / 256 % 16),
             hexDigit (n / 16 % 16), hexDigit (n % 16)]

/-- Escape one character the way Python json.dumps (ensure_ascii=True,
its default) does: short escapes for the seven specials, \uXXXX for other
characters outside the printable ASCII range, surrogate pairs beyond the
BMP. -/
def jsonEscapeChar (c : Char) : String :=
  if c = '"' then "\\\""
  else if c = '\\' then "\\\\"
  else if c = Char.ofNat 8 then "\\b"
  else if c = Char.ofNat 9 then "\\t"
  else if c = Char.ofNat 10 then "\\n"
  else if c = Char.ofNat 12 then "\\f"
  else if c = Char.ofNat 13 then "\\r"
  else if 32 ≤ c.toNat ∧ c.toNat ≤ 126 then String.mk [c]
  else if c.toNat < 65536 then "\\u" ++ hex4 c.toNat
  else
    let v := c.toNat - 65536
    "\\u" ++ hex4 (55296 + v / 1024) ++ "\\u" ++ hex4 (56320 + v % 1024)

/-- Concatenate a list of strings. -/
def concatStrings : List String → String
  | [] => ""
  | s :: ss => s ++ concatStrings ss

/-- Join strings with a separator (Python sep.join). -/
def joinSep (sep : String) : List String → String
  | [] => ""
  | [x] => x
  | x :: y :: xs => x ++ sep ++ joinSep sep (y :: xs)

/-- A JSON string literal with quotes, Python-style escaping. -/
def jsonQuote (s : String) : String :=
  "\"" ++ concatStrings (s.data.map jsonEscapeChar) ++ "\""

/-- Render one JSON value. -/
def jvalRender : JVal → String
  | .jstr s => jsonQuote s
  | .jint n => toString n

/-- Strict lexicographic order on code-point lists, as Python compares
strings. -/
def charsLt : List Char → List Char → Bool
  | [], [] => false
  | [], _ :: _ => true
  | _ :: _, [] => false
  | a :: as, b :: bs =>
      if a.toNat < b.toNat then true
      else if b.toNat < a.toNat then false
      else charsLt as bs

/-- Strict lexicographic order on strings by code point, as Python
compares dict keys under sort_keys=True. -/
def strLt (a b : String) : Bool := charsLt a.data b.data

/-- Insert a pair into a key-sorted association list. -/
def insertByKey (p : String × JVal) : List (String × JVal) → List (String × JVal)
  | [] => [p]
  | q :: qs => if strLt p.1 q.1 then p :: q :: qs else q :: insertByKey p qs

/-- Sort an association list by key (insertion sort; stable, matching
Python's sorted keys). -/
def sortByKey : List (String × JVal) → List (String × JVal)
  | [] => []
  | p :: ps => insertByKey p (sortByKey ps)

/-- json.dumps of a dict with the default separators (", " and ": "). -/
def dumpsPairs (ps : List (String × JVal)) : String :=
  "\x7b" ++ joinSep ", "
    (ps.map (fun p => jsonQuote p.1 ++ ": " ++ jvalRender p.2)) ++ "\x7d"

/-- json.dumps(d, sort_keys=True). -/
def dumpsSorted (ps : List (String × JVal)) : String :=
  dumpsPairs (sortByKey ps)

/-- UTF-8 bytes of one character (str.encode()). -/
def utf8Char (c : Char) : List Nat :=
  let n := c.toNat
  if n < 128 then [n]
  else if n < 2048 then [192 + n / 64, 128 + n % 64]
  else if n < 65536 then [224 + n / 4096, 128 + n / 64 % 64, 128 + n % 64]
  else [240 + n / 262144, 128 + n / 4096 % 64, 128 + n / 64 % 64, 128 + n % 64]

/-- UTF-8 bytes of a string (str.encode()). -/
def utf8Bytes (s : String) : List Nat :=
  (s.data.map utf8Char).flatten

/-- The standard base64 alphabet character at index n (n < 64). -/
def b64Char (n : Nat) : Char :=
  "ABCDEFGHIJKLMNOPQRSTUVWXYZabcdefghijklmnopqrstuvwxyz0123456789+/".toList.getD n '='

/-- Standard base64 encoding with '=' padding, as Python base64.b64encode
produces on a byte string. -/
def base64Encode : List Nat → String
  | [] => ""
  | [a] => String.mk [b64Char (a / 4), b64Char (a % 4 * 16), '=', '=']
  | [a, b] => String.mk [b64Char (a / 4), b64Char (a % 4 * 16 + b / 16),
                         b64Char (b % 16 * 4), '=']
  | a :: b :: c :: rest =>
      String.mk [b64Char (a / 4), b64Char (a % 4 * 16 + b / 16),
                 b64Char (b % 16 * 4 + c / 64), b64Char (c % 64)]
        ++ base64Encode rest

/-- The URL-safe base64 alphabet character at index n (n < 64). -/
def b64urlChar (n : Nat) : Char :=
  "ABCDEFGHIJKLMNOPQRSTUVWXYZabcdefghijklmnopqrstuvwxyz0123456789-_".toList.getD n '='

/-- Unpadded base64url encoding, as the spec's transport format requires. -/
def base64urlEncode : List Nat → String
  | [] => ""
  | [a] => String.mk [b64urlChar (a / 4), b64urlChar (a % 4 * 16)]
  | [a, b] => String.mk [b64urlChar (a / 4), b64urlChar (a % 4 * 16 + b / 16),
                         b64urlChar (b % 16 * 4)]
  | a :: b :: c :: rest =>
      String.mk [b64urlChar (a / 4), b64urlChar (a % 4 * 16 + b / 16),
                 b64urlChar (b % 16 * 4 + c / 64), b64urlChar (c % 64)]
        ++ base64urlEncode rest

/-- Modelled from the spec (section 6 transport token format), for
comparison with the source's encoding: base64url of the payload bytes,
a "." separator, base64url of the signature bytes, both halves unpadded. -/
def toTransportSpec (payloadBytes sigBytes : List Nat) : String :=
  base64urlEncode payloadBytes ++ "." ++ base64urlEncode sigBytes

/-! ## Data model (models.py) -/

/-- models.User row (columns used by the handlers). -/
structure User where
  user_id : String
  phone : String
deriving Repr, DecidableEq

/-- models.Device row. -/
structure Device where
  device_id : String
  user_id : String
  platform : String
deriving Repr, DecidableEq

/-- models.Community row. -/
structure Community where
  community_id : String
  name : String
  description : String
deriving Repr, DecidableEq

/-- models.Membership row. -/
structure Membership where
  user_id : String
  community_id : String
  status : String
  approved_by : Option String := none
deriving Repr, DecidableEq

/-- models.Event row. -/
structure Event where
  user_id : String
  device_id : String
  community_id : String
  type : String
  pi_id : Option String
  timestamp : Nat
  verified : Bool
deriving Repr, DecidableEq

/-- models.Keyset row (active defaults to True in the schema). -/
structure Keyset where
  community_id : String
  algo : String
  public_key : String
  private_key : String
  active : Bool := true
deriving Repr, DecidableEq

/-- models.NonceSeen row (table nonces_seen). -/
structure NonceSeen where
  user_id : String
  community_id : String
  nonce : String
deriving Repr, DecidableEq

/-- The database: one list of rows per table. -/
structure DB where
  users : List User
  devices : List Device
  communities : List Community
  memberships : List Membership
  events : List Event
  keysets : List Keyset
  noncesSeen : List NonceSeen
deriving Repr, DecidableEq

/-- models.RegisterDeviceRequest. -/
structure RegisterDeviceRequest where
  device_id : String
  user_id : String
  phone : String
  platform : String := "android"
  community_id : String
deriving Repr, DecidableEq

/-- models.SignTokenRequest (type is "entry" or "exit" by pydantic). -/
structure SignTokenRequest where
  user_id : String
  device_id : String
  community_id : String
  type : String
deriving Repr, DecidableEq

/-- models.SignTokenResponse. -/
structure SignTokenResponse where
  token : String
  expires_at : Nat
deriving Repr, DecidableEq

/-- models.PiEventRequest. -/
structure PiEventRequest where
  user_id : String
  device_id : String
  community_id : String
  type : String
  timestamp : Nat
  verified : Bool := true
deriving Repr, DecidableEq

/-- A raised fastapi.HTTPException. -/
structure HTTPError where
  status_code : Nat
  detail : String
deriving Repr, DecidableEq

/-- A plain success/message JSON response. -/
structure BasicResponse where
  success : Bool
  message : String
deriving Repr, DecidableEq

/-! ## sign_token (main.py lines 186-239) -/

/-- The payload dict of sign_token in its source insertion order
(main.py lines 221-227). -/
def payloadDict (req : SignTokenRequest) (expires_at : Nat) : List (String × JVal) :=
  [("user_id", .jstr req.user_id),
   ("device_id", .jstr req.device_id),
   ("community_id", .jstr req.community_id),
   ("type", .jstr req.type),
   ("expires_at", .jint expires_at)]

/-- POST /sign_token.  Verifies the device exists, the first membership
row for (user_id, community_id) is approved, and an active keyset exists;
then dumps the payload with sorted keys, signs the payload string and
returns base64(payload_bytes ++ "." ++ signature).  The handler performs
no database write. -/
def sign_token (sign : String → String → List Nat) (now : Nat)
    (db : DB) (req : SignTokenRequest) : Except HTTPError SignTokenResponse :=
  match db.devices.find? (fun d => d.device_id == req.device_id) with
  | none => .error ⟨404, "Device not registered"⟩
  | some _ =>
    match db.memberships.find?
        (fun m => m.user_id == req.user_id && m.community_id == req.community_id) with
    | none => .error ⟨403, "Not a member of this community"⟩
    | some m =>
      if m.status ≠ "approved" then .error ⟨403, "Access not approved"⟩
      else
        match db.keysets.find?
            (fun k => k.community_id == req.community_id && k.active) with
        | none => .error ⟨500, "No active keyset"⟩
        | some keyset =>
          let expires_at := now + 30
          let payload_str := dumpsSorted (payloadDict req expires_at)
          let signature := sign keyset.private_key payload_str
          let token := base64Encode (utf8Bytes payload_str ++ 46 :: signature)
          .ok ⟨token, expires_at⟩

/-! ## Other request handlers (main.py) -/

/-- POST /register_device (main.py lines 108-142).  Creates the user row
if missing, rejects an already-registered device_id (the pending user add
is discarded: the session is closed without commit), otherwise appends the
device and a fresh membership row with status "pending". -/
def register_device (db : DB) (req : RegisterDeviceRequest) : BasicResponse × DB :=
  let users :=
    if (db.users.find? (fun u => u.user_id == req.user_id)).isSome then db.users
    else db.users ++ [⟨req.user_id, req.phone⟩]
  match db.devices.find? (fun d => d.device_id == req.device_id) with
  | some _ => (⟨false, "Device already registered"⟩, db)
  | none =>
      (⟨true, "Device registered. Waiting for admin approval."⟩,
       { db with
          users := users,
          devices := db.devices ++ [⟨req.device_id, req.user_id, req.platform⟩],
          memberships := db.memberships ++ [⟨req.user_id, req.community_id, "pending", none⟩] })

/-- Update the first list element satisfying p (SQLAlchemy .first() row
mutation followed by commit). -/
def updateFirst (p : α → Bool) (f : α → α) : List α → List α
  | [] => []
  | x :: xs => if p x then f x :: xs else x :: updateFirst p f xs

/-- GET /admin/approve_device/\x7buser_id\x7d/\x7bcommunity_id\x7d
(main.py lines 144-161).  404 when no membership row matches; otherwise
the first matching row's status becomes "approved". -/
def approve_device (db : DB) (user_id community_id : String) :
    Except HTTPError BasicResponse × DB :=
  let isMatch := fun (m : Membership) =>
    m.user_id == user_id && m.community_id == community_id
  if (db.memberships.find? isMatch).isSome then
    (.ok ⟨true, "User approved for " ++ community_id⟩,
     { db with memberships := updateFirst isMatch (fun m => { m with status := "approved" }) db.memberships })
  else (.error ⟨404, "Membership not found"⟩, db)

/-- One entry of the communities list of the Pi configuration. -/
structure CommMeta where
  community_id : String
  name : String
  description : String
deriving Repr, DecidableEq

/-- The Pi configuration response: community metadata plus a dict from
community_id to the active public key. -/
structure PiConfig where
  communities : List CommMeta
  keysets : List (String × String)
deriving Repr, DecidableEq

/-- GET /pi/config (main.py lines 241-267).  Lists every community's
metadata; for each community with an active keyset, maps its id to the
keyset's public_key.  Reads no private key and writes nothing. -/
def get_pi_config (db : DB) : PiConfig :=
  { communities := db.communities.map (fun c => ⟨c.community_id, c.name, c.description⟩),
    keysets := db.communities.filterMap (fun c =>
      (db.keysets.find? (fun k => k.community_id == c.community_id && k.active)).map
        (fun k => (c.community_id, k.public_key))) }

/-- POST /pi/log_access (main.py lines 269-286).  Appends an Event row
(pi_id is not set by this handler) and reports success. -/
def log_access (db : DB) (ev : PiEventRequest) : Bool × DB :=
  (true,
   { db with events := db.events ++
      [⟨ev.user_id, ev.device_id, ev.community_id, ev.type, none, ev.timestamp, ev.verified⟩] })

/-! ## Key initialization (main.py init_keys) and seeding (seed_db.py) -/

/-- Append a fresh active keyset for comm_id only when the community has
no active keyset yet (the shared query-then-add pattern of main.py lines
67-85 and seed_db.py lines 62-83); gen stands for SigningKey.generate,
returning the (public, private) base64 strings for the community. -/
def addKeysetIfNoneActive (gen : String → String × String)
    (ks : List Keyset) (comm_id : String) : List Keyset :=
  if (ks.find? (fun k => k.community_id == comm_id && k.active)).isSome then ks
  else ks ++ [⟨comm_id, "ED25519", (gen comm_id).1, (gen comm_id).2, true⟩]

/-- The three community ids hard-coded in init_keys (main.py line 47). -/
def initCommunities : List String := ["apt101", "public_parking", "gym_access"]

/-- The comm_data dict of init_keys (main.py lines 54-58): name and
description per community id. -/
def commMeta : String → String × String
  | "apt101" => ("Apartment 101 Parking", "Resident parking access")
  | "public_parking" => ("Public Parking", "Public visitor parking")
  | "gym_access" => ("Gym Access", "24/7 gym facility")
  | _ => ("", "")

/-- One loop iteration of init_keys (main.py lines 49-86): create the
community row if missing, then add a keyset only if none is active. -/
def init_keys_step (gen : String → String × String) (db : DB) (comm_id : String) : DB :=
  let db1 :=
    if (db.communities.find? (fun c => c.community_id == comm_id)).isSome then db
    else { db with communities :=
            db.communities ++ [⟨comm_id, (commMeta comm_id).1, (commMeta comm_id).2⟩] }
  { db1 with keysets := addKeysetIfNoneActive gen db1.keysets comm_id }

/-- init_keys (main.py lines 46-88), run at startup. -/
def init_keys (gen : String → String × String) (db : DB) : DB :=
  initCommunities.foldl (init_keys_step gen) db

/-- The demo communities of seed_db.py lines 32-48. -/
def seedCommunities : List Community :=
  [⟨"apt101", "Apartment 101 Parking", "Main apartment building parking access"⟩,
   ⟨"public_parking", "Public Parking Lot", "City public parking facility"⟩,
   ⟨"gym_access", "Gym Access", "24/7 gym facility access"⟩]

/-- seed_db.py lines 50-57: add a community unless its id exists. -/
def addCommunityIfMissing (cs : List Community) (c : Community) : List Community :=
  if (cs.find? (fun x => x.community_id == c.community_id)).isSome then cs else cs ++ [c]

/-- The demo users of seed_db.py lines 88-92. -/
def seedUsers : List User :=
  [⟨"user001", "+1234567890"⟩, ⟨"user002", "+1234567891"⟩, ⟨"user003", "+1234567892"⟩]

/-- seed_db.py lines 94-99: add a user unless the user_id exists. -/
def addUserIfMissing (us : List User) (u : User) : List User :=
  if (us.find? (fun x => x.user_id == u.user_id)).isSome then us else us ++ [u]

/-- The demo devices of seed_db.py lines 105-109. -/
def seedDevices : List Device :=
  [⟨"android_device_001", "user001", "android"⟩,
   ⟨"android_device_002", "user002", "android"⟩,
   ⟨"android_device_003", "user003", "android"⟩]

/-- seed_db.py lines 111-118: add a device unless the device_id exists. -/
def addDeviceIfMissing (ds : List Device) (d : Device) : List Device :=
  if (ds.find? (fun x => x.device_id == d.device_id)).isSome then ds else ds ++ [d]

/-- The demo memberships of seed_db.py lines 124-131. -/
def seedMemberships : List Membership :=
  [⟨"user001", "apt101", "approved", some "admin"⟩,
   ⟨"user002", "public_parking", "approved", some "admin"⟩,
   ⟨"user003", "gym_access", "pending", none⟩]

/-- seed_db.py lines 133-142: add a membership unless one exists for the
same (user_id, community_id). -/
def addMembershipIfMissing (ms : List Membership) (m : Membership) : List Membership :=
  if (ms.find?
        (fun x => x.user_id == m.user_id && x.community_id == m.community_id)).isSome
  then ms else ms ++ [m]

/-- seed_database (seed_db.py lines 19-174): communities, then keysets
for the same three community ids, then users, devices, memberships; each
phase reads and writes only its own table. -/
def seed_database (gen : String → String × String) (db : DB) : DB :=
  { db with
     communities := seedCommunities.foldl addCommunityIfMissing db.communities,
     keysets := (seedCommunities.map (fun c => c.community_id)).foldl
                  (addKeysetIfNoneActive gen) db.keysets,
     users := seedUsers.foldl addUserIfMissing db.users,
     devices := seedDevices.foldl addDeviceIfMissing db.devices,
     memberships := seedMemberships.foldl addMembershipIfMissing db.memberships }

/-- The spec's key invariant: at most one active keyset per community. -/
def atMostOneActive (ks : List Keyset) : Prop :=
  ∀ c : String, (ks.filter (fun k => k.community_id == c && k.active)).length ≤ 1

/-! ## Shared concrete states for witnesses and counterexamples -/

/-- A deterministic stand-in for the Ed25519 library signer: the all-zero
64-byte signature. -/
def exSign : String → String → List Nat := fun _ _ => List.replicate 64 0

/-- A deterministic stand-in for SigningKey.generate. -/
def exGen : String → String × String := fun c => ("PUB_" ++ c, "PRIV_" ++ c)

/-- A concrete sign_token request. -/
def exReq : SignTokenRequest := ⟨"user001", "android_device_001", "apt101", "entry"⟩

/-- A concrete database: one user, their device, one community with an
approved membership and one active keyset. -/
def exDB : DB :=
  { users := [⟨"user001", "+1234567890"⟩],
    devices := [⟨"android_device_001", "user001", "android"⟩],
    communities := [⟨"apt101", "Apartment 101 Parking", "Resident parking access"⟩],
    memberships := [⟨"user001", "apt101", "approved", some "admin"⟩],
    events := [],
    keysets := [⟨"apt101", "ED25519", "PUBKEY", "PRIVKEY", true⟩],
    noncesSeen := [] }

/-- The payload string sign_token signs for exReq at now = 1000. -/
def exPayloadStr : String := dumpsSorted (payloadDict exReq 1030)

/-- The token the source emits for exReq at now = 1000 with exSign. -/
def exToken : String := base64Encode (utf8Bytes exPayloadStr ++ 46 :: List.replicate 64 0)

/-! ## Helper lemmas about sign_token -/

/-- When the device exists, the first matching membership is approved and
an active keyset is found, sign_token returns the base64 of the sorted
payload dump, a "." byte and the signature, expiring at now + 30. -/
theorem sign_token_success (sign : String → String → List Nat) (now : Nat)
    (db : DB) (req : SignTokenRequest) (d : Device) (m : Membership) (k : Keyset)
    (hd : db.devices.find? (fun x => x.device_id == req.device_id) = some d)
    (hm : db.memberships.find?
      (fun x => x.user_id == req.user_id && x.community_id == req.community_id) = some m)
    (hs : m.status = "approved")
    (hk : db.keysets.find? (fun x => x.community_id == req.community_id && x.active) = some k) :
    sign_token sign now db req =
      .ok ⟨base64Encode (utf8Bytes (dumpsSorted (payloadDict req (now + 30)))
             ++ 46 :: sign k.private_key (dumpsSorted (payloadDict req (now + 30)))),
           now + 30⟩ := by
  simp [sign_token, hd, hm, hs, hk]

/-- Inversion: a successful sign_token call implies the device check,
approval check and keyset lookup all passed, and pins down the response. -/
theorem sign_token_ok_inv (sign : String → String → List Nat) (now : Nat)
    (db : DB) (req : SignTokenRequest) (r : SignTokenResponse)
    (h : sign_token sign now db req = .ok r) :
    ∃ d m k,
      db.devices.find? (fun x => x.device_id == req.device_id) = some d ∧
      db.memberships.find?
        (fun x => x.user_id == req.user_id && x.community_id == req.community_id) = some m ∧
      m.status = "approved" ∧
      db.keysets.find? (fun x => x.community_id == req.community_id && x.active) = some k ∧
      r = ⟨base64Encode (utf8Bytes (dumpsSorted (payloadDict req (now + 30)))
             ++ 46 :: sign k.private_key (dumpsSorted (payloadDict req (now + 30)))),
           now + 30⟩ := by
  unfold sign_token at h
  split at h
  · exact absurd h (by simp)
  · split at h
    · exact absurd h (by simp)
    · split at h
      · exact absurd h (by simp)
      · split at h
        · exact absurd h (by simp)
        · rename_i x1 d hd x2 m hm hs x3 k hk
          exact ⟨d, m, k, hd, hm, by simpa using hs, hk, (Except.ok.inj h).symm⟩

/-! ## C1: transport token format -/

/-- C1 counterexample: at a concrete approved state (now = 1000), the call
succeeds, yet the emitted token is not the claimed transport encoding
base64url(payload-bytes) ++ "." ++ base64url(signature-bytes) of the very
payload string and 64-byte signature it signs. -/
theorem C1_counterexample :
    sign_token exSign 1000 exDB exReq = .ok ⟨exToken, 1030⟩ ∧
    exToken ≠ toTransportSpec (utf8Bytes exPayloadStr) (exSign "PRIVKEY" exPayloadStr) := by
  constructor
  · rw [sign_token_success exSign 1000 exDB exReq
      ⟨"android_device_001", "user001", "android"⟩
      ⟨"user001", "apt101", "approved", some "admin"⟩
      ⟨"apt101", "ED25519", "PUBKEY", "PRIVKEY", true⟩
      (by decide) (by decide) (by decide) (by decide)]
    rfl
  · decide

/-- C1 (amended): for every successful sign_token call, the returned token
is one standard base64 encoding (padded, "+"/"/" alphabet) of the
canonical JSON payload bytes, a "." byte (46), and the signature bytes
concatenated — the two halves are joined before encoding, not
independently base64url-encoded. -/
theorem C1_token_format (sign : String → String → List Nat) (now : Nat)
    (db : DB) (req : SignTokenRequest) (r : SignTokenResponse) (k : Keyset)
    (hk : db.keysets.find? (fun x => x.community_id == req.community_id && x.active) = some k)
    (h : sign_token sign now db req = .ok r) :
    r.token = base64Encode (utf8Bytes (dumpsSorted (payloadDict req (now + 30)))
      ++ 46 :: sign k.private_key (dumpsSorted (payloadDict req (now + 30)))) := by
  obtain ⟨d, m, k2, hd, hm, hs, hk2, hr⟩ := sign_token_ok_inv sign now db req r h
  cases Option.some.inj (hk.symm.trans hk2)
  rw [hr]

/-- C1 witness: the format theorem applied at the concrete state. -/
theorem C1_token_format_witness :
    exToken = base64Encode (utf8Bytes (dumpsSorted (payloadDict exReq (1000 + 30)))
      ++ 46 :: exSign "PRIVKEY" (dumpsSorted (payloadDict exReq (1000 + 30)))) :=
  C1_token_format exSign 1000 exDB exReq ⟨exToken, 1030⟩
    ⟨"apt101", "ED25519", "PUBKEY", "PRIVKEY", true⟩ (by decide)
    (sign_token_success exSign 1000 exDB exReq
      ⟨"android_device_001", "user001", "android"⟩
      ⟨"user001", "apt101", "approved", some "admin"⟩
      ⟨"apt101", "ED25519", "PUBKEY", "PRIVKEY", true⟩
      (by decide) (by decide) (by decide) (by decide))

/-! ## C2: canonical payload fields -/

/-- C2 counterexample: at a concrete successful call the signed payload
has no nonce, ver or iat field at all. -/
theorem C2_counterexample :
    sign_token exSign 1000 exDB exReq = .ok ⟨exToken, 1030⟩ ∧
    "nonce" ∉ (payloadDict exReq 1030).map Prod.fst ∧
    "ver" ∉ (payloadDict exReq 1030).map Prod.fst ∧
    "iat" ∉ (payloadDict exReq 1030).map Prod.fst := by
  refine ⟨?_, by decide, by decide, by decide⟩
  rw [sign_token_success exSign 1000 exDB exReq
    ⟨"android_device_001", "user001", "android"⟩
    ⟨"user001", "apt101", "approved", some "admin"⟩
    ⟨"apt101", "ED25519", "PUBKEY", "PRIVKEY", true⟩
    (by decide) (by decide) (by decide) (by decide)]
  rfl

/-- C2 (amended): every payload signed and emitted by sign_token consists
of exactly the five fields user_id, device_id, community_id, type (the
request's values) and expires_at = now + 30; there is no ver, iat or
nonce field and no nonce is generated. -/
theorem C2_payload_fields (sign : String → String → List Nat) (now : Nat)
    (db : DB) (req : SignTokenRequest) (r : SignTokenResponse) (k : Keyset)
    (hk : db.keysets.find? (fun x => x.community_id == req.community_id && x.active) = some k)
    (h : sign_token sign now db req = .ok r) :
    r.token = base64Encode (utf8Bytes (dumpsSorted (payloadDict req (now + 30)))
      ++ 46 :: sign k.private_key (dumpsSorted (payloadDict req (now + 30)))) ∧
    payloadDict req (now + 30) =
      [("user_id", .jstr req.user_id), ("device_id", .jstr req.device_id),
       ("community_id", .jstr req.community_id), ("type", .jstr req.type),
       ("expires_at", .jint (now + 30))] := by
  obtain ⟨d, m, k2, hd, hm, hs, hk2, hr⟩ := sign_token_ok_inv sign now db req r h
  cases Option.some.inj (hk.symm.trans hk2)
  exact ⟨by rw [hr], rfl⟩

/-- C2 witness: the field theorem applied at the concrete state. -/
theorem C2_payload_fields_witness :
    exToken = base64Encode (utf8Bytes (dumpsSorted (payloadDict exReq (1000 + 30)))
      ++ 46 :: exSign "PRIVKEY" (dumpsSorted (payloadDict exReq (1000 + 30)))) ∧
    payloadDict exReq (1000 + 30) =
      [("user_id", .jstr exReq.user_id), ("device_id", .jstr exReq.device_id),
       ("community_id", .jstr exReq.community_id), ("type", .jstr exReq.type),
       ("expires_at", .jint (1000 + 30))] :=
  C2_payload_fields exSign 1000 exDB exReq ⟨exToken, 1030⟩
    ⟨"apt101", "ED25519", "PUBKEY", "PRIVKEY", true⟩ (by decide)
    (sign_token_success exSign 1000 exDB exReq
      ⟨"android_device_001", "user001", "android"⟩
      ⟨"user001", "apt101", "approved", some "admin"⟩
      ⟨"apt101", "ED25519", "PUBKEY", "PRIVKEY", true⟩
      (by decide) (by decide) (by decide) (by decide))

/-- exDB with no registered devices. -/
def exNoDeviceDB : DB := { exDB with devices := [] }

/-- exDB with the membership still pending. -/
def exPendingDB : DB := { exDB with memberships := [⟨"user001", "apt101", "pending", none⟩] }

/-- exDB with no keysets at all. -/
def exNoKeysetDB : DB := { exDB with keysets := [] }

/-- exDB with the device registered to a different user (user002). -/
def exForeignDeviceDB : DB :=
  { exDB with devices := [⟨"android_device_001", "user002", "android"⟩] }

/-! ## C4: issuance preconditions and failure codes -/

/-- C4: sign_token emits a token only when the device is registered and an
approved membership row for (user_id, community_id) exists; an unknown
device yields HTTP 404, a missing membership yields HTTP 403, and a
membership found in any status other than "approved" yields HTTP 403 —
in each failure case no token is produced (the result is an error). -/
theorem C4_issuance_guard (sign : String → String → List Nat) (now : Nat)
    (db : DB) (req : SignTokenRequest) :
    (∀ r, sign_token sign now db req = .ok r →
      (db.devices.find? (fun x => x.device_id == req.device_id)).isSome ∧
      ∃ m ∈ db.memberships, m.user_id = req.user_id ∧ m.community_id = req.community_id ∧
        m.status = "approved") ∧
    (db.devices.find? (fun x => x.device_id == req.device_id) = none →
      sign_token sign now db req = .error ⟨404, "Device not registered"⟩) ∧
    (∀ d, db.devices.find? (fun x => x.device_id == req.device_id) = some d →
      db.memberships.find?
        (fun x => x.user_id == req.user_id && x.community_id == req.community_id) = none →
      sign_token sign now db req = .error ⟨403, "Not a member of this community"⟩) ∧
    (∀ d m, db.devices.find? (fun x => x.device_id == req.device_id) = some d →
      db.memberships.find?
        (fun x => x.user_id == req.user_id && x.community_id == req.community_id) = some m →
      m.status ≠ "approved" →
      sign_token sign now db req = .error ⟨403, "Access not approved"⟩) := by
  refine ⟨?_, ?_, ?_, ?_⟩
  · intro r h
    obtain ⟨d, m, k, hd, hm, hs, hk, hr⟩ := sign_token_ok_inv sign now db req r h
    have hp := List.find?_some hm
    rw [Bool.and_eq_true, beq_iff_eq, beq_iff_eq] at hp
    exact ⟨by simp [hd], m, List.mem_of_find?_eq_some hm, hp.1, hp.2, hs⟩
  · intro hd
    simp [sign_token, hd]
  · intro d hd hm
    simp [sign_token, hd, hm]
  · intro d m hd hm hs
    simp [sign_token, hd, hm, hs]

/-- C4 witness: a missing device gives 404; a pending membership gives
403, at concrete states. -/
theorem C4_issuance_guard_witness :
    sign_token exSign 1000 exNoDeviceDB exReq = .error ⟨404, "Device not registered"⟩ ∧
    sign_token exSign 1000 exPendingDB exReq = .error ⟨403, "Access not approved"⟩ := by
  constructor
  · exact (C4_issuance_guard exSign 1000 exNoDeviceDB exReq).2.1 (by decide)
  · exact (C4_issuance_guard exSign 1000 exPendingDB exReq).2.2.2
      ⟨"android_device_001", "user001", "android"⟩ ⟨"user001", "apt101", "pending", none⟩
      (by decide) (by decide) (by decide)

/-! ## C5: fixed 30-second TTL -/

/-- C5: on every successful call at time now, the response's expires_at is
now + 30, the signed payload carries that same expires_at value, and the
token encodes the payload computed at the response's expires_at. -/
theorem C5_fixed_ttl (sign : String → String → List Nat) (now : Nat)
    (db : DB) (req : SignTokenRequest) (r : SignTokenResponse) (k : Keyset)
    (hk : db.keysets.find? (fun x => x.community_id == req.community_id && x.active) = some k)
    (h : sign_token sign now db req = .ok r) :
    r.expires_at = now + 30 ∧
    ("expires_at", JVal.jint r.expires_at) ∈ payloadDict req r.expires_at ∧
    r.token = base64Encode (utf8Bytes (dumpsSorted (payloadDict req r.expires_at))
      ++ 46 :: sign k.private_key (dumpsSorted (payloadDict req r.expires_at))) := by
  obtain ⟨d, m, k2, hd, hm, hs, hk2, hr⟩ := sign_token_ok_inv sign now db req r h
  cases Option.some.inj (hk.symm.trans hk2)
  subst hr
  exact ⟨rfl, by simp [payloadDict], rfl⟩

/-- C5 witness: the TTL theorem applied at the concrete state. -/
theorem C5_fixed_ttl_witness :
    (1030 : Nat) = 1000 + 30 ∧
    ("expires_at", JVal.jint 1030) ∈ payloadDict exReq 1030 ∧
    exToken = base64Encode (utf8Bytes (dumpsSorted (payloadDict exReq 1030))
      ++ 46 :: exSign "PRIVKEY" (dumpsSorted (payloadDict exReq 1030))) :=
  C5_fixed_ttl exSign 1000 exDB exReq ⟨exToken, 1030⟩
    ⟨"apt101", "ED25519", "PUBKEY", "PRIVKEY", true⟩ (by decide)
    (sign_token_success exSign 1000 exDB exReq
      ⟨"android_device_001", "user001", "android"⟩
      ⟨"user001", "apt101", "approved", some "admin"⟩
      ⟨"apt101", "ED25519", "PUBKEY", "PRIVKEY", true⟩
      (by decide) (by decide) (by decide) (by decide))

/-! ## C6: missing active keyset -/

/-- C6: when the device and approved-membership checks pass but no active
keyset exists for the community, sign_token fails with HTTP 500 ("No
active keyset") and emits no token (the result is an error); the handler
performs no database write at all, so the state is unchanged. -/
theorem C6_no_active_keyset (sign : String → String → List Nat) (now : Nat)
    (db : DB) (req : SignTokenRequest) (d : Device) (m : Membership)
    (hd : db.devices.find? (fun x => x.device_id == req.device_id) = some d)
    (hm : db.memberships.find?
      (fun x => x.user_id == req.user_id && x.community_id == req.community_id) = some m)
    (hs : m.status = "approved")
    (hk : db.keysets.find? (fun x => x.community_id == req.community_id && x.active) = none) :
    sign_token sign now db req = .error ⟨500, "No active keyset"⟩ := by
  simp [sign_token, hd, hm, hs, hk]

/-- C6 witness: the 500 outcome at a concrete keyset-less state. -/
theorem C6_no_active_keyset_witness :
    sign_token exSign 1000 exNoKeysetDB exReq = .error ⟨500, "No active keyset"⟩ :=
  C6_no_active_keyset exSign 1000 exNoKeysetDB exReq
    ⟨"android_device_001", "user001", "android"⟩
    ⟨"user001", "apt101", "approved", some "admin"⟩
    (by decide) (by decide) (by decide) (by decide)

/-! ## C9: no device-ownership check -/

/-- C9: sign_token never compares the found device's owner with the
requesting user: whenever the device exists but is registered to a
different user, while the first (user_id, community_id) membership is
approved and an active keyset exists, the call succeeds and the signed
payload names the request's user_id and device_id. -/
theorem C9_no_device_ownership_check (sign : String → String → List Nat) (now : Nat)
    (db : DB) (req : SignTokenRequest) (d : Device) (m : Membership) (k : Keyset)
    (hd : db.devices.find? (fun x => x.device_id == req.device_id) = some d)
    (hforeign : d.user_id ≠ req.user_id)
    (hm : db.memberships.find?
      (fun x => x.user_id == req.user_id && x.community_id == req.community_id) = some m)
    (hs : m.status = "approved")
    (hk : db.keysets.find? (fun x => x.community_id == req.community_id && x.active) = some k) :
    sign_token sign now db req =
      .ok ⟨base64Encode (utf8Bytes (dumpsSorted (payloadDict req (now + 30)))
            ++ 46 :: sign k.private_key (dumpsSorted (payloadDict req (now + 30)))),
          now + 30⟩ ∧
    ("user_id", JVal.jstr req.user_id) ∈ payloadDict req (now + 30) ∧
    ("device_id", JVal.jstr req.device_id) ∈ payloadDict req (now + 30) :=
  ⟨sign_token_success sign now db req d m k hd hm hs hk,
   by simp [payloadDict], by simp [payloadDict]⟩

/-- C9 witness: the device belongs to user002, yet user001's request
succeeds. -/
theorem C9_no_device_ownership_check_witness :
    sign_token exSign 1000 exForeignDeviceDB exReq =
      .ok ⟨base64Encode (utf8Bytes (dumpsSorted (payloadDict exReq (1000 + 30)))
            ++ 46 :: exSign "PRIVKEY" (dumpsSorted (payloadDict exReq (1000 + 30)))),
          1000 + 30⟩ ∧
    ("user_id", JVal.jstr exReq.user_id) ∈ payloadDict exReq (1000 + 30) ∧
    ("device_id", JVal.jstr exReq.device_id) ∈ payloadDict exReq (1000 + 30) :=
  C9_no_device_ownership_check exSign 1000 exForeignDeviceDB exReq
    ⟨"android_device_001", "user002", "android"⟩
    ⟨"user001", "apt101", "approved", some "admin"⟩
    ⟨"apt101", "ED25519", "PUBKEY", "PRIVKEY", true⟩
    (by decide) (by decide) (by decide) (by decide) (by decide)

/-! ## C3: the nonces_seen table is never consulted -/

/-- C3: device registration, membership approval, token signing, the Pi
configuration fetch and event logging neither read nor write the
nonces_seen table: each operation's response is unchanged under an
arbitrary replacement of that table, and each output state carries the
replacement through untouched (so with the identity replacement, the
table's contents are unchanged by every handler). -/
theorem C3_nonces_seen_untouched (db : DB) (ns : List NonceSeen)
    (rreq : RegisterDeviceRequest) (uid cid : String)
    (sign : String → String → List Nat) (now : Nat) (sreq : SignTokenRequest)
    (ev : PiEventRequest) :
    (register_device { db with noncesSeen := ns } rreq).1 = (register_device db rreq).1 ∧
    (register_device { db with noncesSeen := ns } rreq).2 =
      { (register_device db rreq).2 with noncesSeen := ns } ∧
    (approve_device { db with noncesSeen := ns } uid cid).1 = (approve_device db uid cid).1 ∧
    (approve_device { db with noncesSeen := ns } uid cid).2 =
      { (approve_device db uid cid).2 with noncesSeen := ns } ∧
    sign_token sign now { db with noncesSeen := ns } sreq = sign_token sign now db sreq ∧
    get_pi_config { db with noncesSeen := ns } = get_pi_config db ∧
    (log_access { db with noncesSeen := ns } ev).1 = (log_access db ev).1 ∧
    (log_access { db with noncesSeen := ns } ev).2 =
      { (log_access db ev).2 with noncesSeen := ns } := by
  refine ⟨?_, ?_, ?_, ?_, rfl, rfl, rfl, rfl⟩
  · cases h : db.devices.find? (fun d => d.device_id == rreq.device_id) <;>
      simp [register_device, h]
  · cases h : db.devices.find? (fun d => d.device_id == rreq.device_id) <;>
      simp [register_device, h]
  · by_cases h : (db.memberships.find?
        (fun m => m.user_id == uid && m.community_id == cid)).isSome <;>
      simp [approve_device, h]
  · by_cases h : (db.memberships.find?
        (fun m => m.user_id == uid && m.community_id == cid)).isSome <;>
      simp [approve_device, h]

/-! ## C10: registration always adds a pending membership -/

/-- C10: register_device with an unseen device_id succeeds and appends a
new membership row with status "pending" for (user_id, community_id),
regardless of any membership rows already present for that pair. -/
theorem C10_register_always_pending (db : DB) (req : RegisterDeviceRequest)
    (h : db.devices.find? (fun d => d.device_id == req.device_id) = none) :
    (register_device db req).1 = ⟨true, "Device registered. Waiting for admin approval."⟩ ∧
    (register_device db req).2.memberships =
      db.memberships ++ [⟨req.user_id, req.community_id, "pending", none⟩] := by
  simp [register_device, h]

/-- C10 witness: registering a second device for user001 in a state that
already holds an approved (user001, apt101) membership leaves both the
approved and the new pending row in the table. -/
theorem C10_register_always_pending_witness :
    (register_device exDB
        ⟨"android_device_002", "user001", "+1234567890", "android", "apt101"⟩).1 =
      ⟨true, "Device registered. Waiting for admin approval."⟩ ∧
    (register_device exDB
        ⟨"android_device_002", "user001", "+1234567890", "android", "apt101"⟩).2.memberships =
      [⟨"user001", "apt101", "approved", some "admin"⟩,
       ⟨"user001", "apt101", "pending", none⟩] := by
  have h := C10_register_always_pending exDB
    ⟨"android_device_002", "user001", "+1234567890", "android", "apt101"⟩ (by decide)
  exact ⟨h.1, h.2.trans (by decide)⟩

/-! ## C7: at most one active keyset per community -/

/-- Appending a fresh active keyset only when none is active preserves the
one-active-keyset-per-community invariant. -/
theorem addKeysetIfNoneActive_atMostOne (gen : String → String × String)
    (ks : List Keyset) (comm_id : String) (h : atMostOneActive ks) :
    atMostOneActive (addKeysetIfNoneActive gen ks comm_id) := by
  unfold addKeysetIfNoneActive
  split
  · exact h
  · rename_i hc
    have hnone : ks.find? (fun k => k.community_id == comm_id && k.active) = none := by
      rcases hfind : ks.find? (fun k => k.community_id == comm_id && k.active) with _ | v
      · exact hfind
      · exact absurd (by simp [hfind]) hc
    intro c
    rw [List.filter_append]
    cases hbc : (comm_id == c) with
    | false => simpa [List.filter, hbc] using h c
    | true =>
      cases eq_of_beq hbc
      have hempty : ks.filter (fun k => k.community_id == comm_id && k.active) = [] := by
        rw [List.filter_eq_nil_iff]
        exact List.find?_eq_none.mp hnone
      simp [hempty, List.filter]

/-- The invariant is preserved along the whole key-generation loop. -/
theorem foldl_addKeyset_atMostOne (gen : String → String × String) (l : List String) :
    ∀ ks, atMostOneActive ks → atMostOneActive (l.foldl (addKeysetIfNoneActive gen) ks) := by
  induction l with
  | nil => exact fun ks h => h
  | cons c cs ih => exact fun ks h => ih _ (addKeysetIfNoneActive_atMostOne gen ks c h)

/-- One init_keys iteration changes keysets exactly by the guarded
append (the community insert leaves keysets alone). -/
theorem init_keys_step_keysets (gen : String → String × String) (db : DB) (comm_id : String) :
    (init_keys_step gen db comm_id).keysets = addKeysetIfNoneActive gen db.keysets comm_id := by
  simp only [init_keys_step]
  split <;> rfl

/-- The init_keys loop acts on the keysets table as the guarded-append
fold. -/
theorem init_keys_foldl_keysets (gen : String → String × String) (l : List String) :
    ∀ db : DB, (l.foldl (init_keys_step gen) db).keysets =
      l.foldl (addKeysetIfNoneActive gen) db.keysets := by
  induction l with
  | nil => exact fun db => rfl
  | cons c cs ih =>
      intro db
      rw [List.foldl_cons, List.foldl_cons, ih, init_keys_step_keysets]

/-- C7: both keyset-creating operations — startup init_keys and
seed_database — preserve the invariant that every community has at most
one active keyset, because each inserts a new active keyset for a
community only when that community currently has none (when an active
keyset already exists, the keysets table is left unchanged, so no two
keysets for one community are ever co-active). -/
theorem C7_at_most_one_active (gen : String → String × String) (db : DB)
    (h : atMostOneActive db.keysets) :
    atMostOneActive (init_keys gen db).keysets ∧
    atMostOneActive (seed_database gen db).keysets ∧
    (∀ ks c, (ks.find? (fun k => k.community_id == c && k.active)).isSome →
      addKeysetIfNoneActive gen ks c = ks) := by
  refine ⟨?_, ?_, ?_⟩
  · rw [init_keys, init_keys_foldl_keysets]
    exact foldl_addKeyset_atMostOne gen _ _ h
  · show atMostOneActive ((seedCommunities.map (fun c => c.community_id)).foldl
      (addKeysetIfNoneActive gen) db.keysets)
    exact foldl_addKeyset_atMostOne gen _ _ h
  · intro ks c hf
    simp [addKeysetIfNoneActive, hf]

/-- C7 witness: the invariant theorem applied at the concrete state
(whose single keyset trivially satisfies the invariant). -/
theorem C7_at_most_one_active_witness :
    atMostOneActive (init_keys exGen exDB).keysets ∧
    atMostOneActive (seed_database exGen exDB).keysets ∧
    (∀ ks c, (ks.find? (fun k => k.community_id == c && k.active)).isSome →
      addKeysetIfNoneActive exGen ks c = ks) :=
  C7_at_most_one_active exGen exDB
    (fun c => le_trans (List.length_filter_le _ _) (by decide))

/-! ## C8: the Pi configuration is independent of private keys -/

/-- Two keyset rows that agree on everything except private_key. -/
def keysetPublicEq (a b : Keyset) : Prop :=
  a.community_id = b.community_id ∧ a.algo = b.algo ∧
  a.public_key = b.public_key ∧ a.active = b.active

/-- find? on the (community, active) predicate projected to the public
key cannot distinguish keyset tables that differ only in private keys. -/
theorem find?_public_congr (c : String) :
    ∀ {ks1 ks2 : List Keyset}, List.Forall₂ keysetPublicEq ks1 ks2 →
    Option.map (fun k => (c, k.public_key))
      (ks2.find? (fun k => k.community_id == c && k.active)) =
    Option.map (fun k => (c, k.public_key))
      (ks1.find? (fun k => k.community_id == c && k.active)) := by
  intro ks1 ks2 h
  induction h with
  | nil => rfl
  | cons hab htail ih =>
    rename_i a b l1 l2
    have hpred : (b.community_id == c && b.active) = (a.community_id == c && a.active) := by
      rw [hab.1, hab.2.2.2]
    cases hpa : (a.community_id == c && a.active) with
    | true =>
      simp only [List.find?_cons, hpred, hpa]
      simp [hab.2.2.1]
    | false =>
      simp only [List.find?_cons, hpred, hpa]
      exact ih

/-- The whole keysets dict of the Pi configuration is likewise
indistinguishable. -/
theorem filterMap_public_congr (ks1 ks2 : List Keyset)
    (h : List.Forall₂ keysetPublicEq ks1 ks2) :
    ∀ cs : List Community,
      cs.filterMap (fun c => Option.map (fun k => (c.community_id, k.public_key))
        (ks2.find? (fun k => k.community_id == c.community_id && k.active))) =
      cs.filterMap (fun c => Option.map (fun k => (c.community_id, k.public_key))
        (ks1.find? (fun k => k.community_id == c.community_id && k.active))) := by
  intro cs
  induction cs with
  | nil => rfl
  | cons c cs ih => rw [List.filterMap_cons, List.filterMap_cons,
      find?_public_congr c.community_id h, ih]

/-- C8: get_pi_config depends only on community metadata and public keys:
for any two database states that differ only in the private_key column of
the keysets table, the responses are identical, so private keys never
reach edge hardware through this endpoint. -/
theorem C8_config_private_independent (db : DB) (ks2 : List Keyset)
    (h : List.Forall₂ keysetPublicEq db.keysets ks2) :
    get_pi_config { db with keysets := ks2 } = get_pi_config db := by
  unfold get_pi_config
  exact congrArg
    (PiConfig.mk (db.communities.map (fun c => ⟨c.community_id, c.name, c.description⟩)))
    (filterMap_public_congr db.keysets ks2 h db.communities)

/-- C8 witness: replacing the only private key with a different value
leaves the Pi configuration identical. -/
theorem C8_config_private_independent_witness :
    get_pi_config
        { exDB with keysets := [⟨"apt101", "ED25519", "PUBKEY", "OTHER_PRIVATE", true⟩] } =
      get_pi_config exDB :=
  C8_config_private_independent exDB _
    (List.Forall₂.cons ⟨rfl, rfl, rfl, rfl⟩ List.Forall₂.nil)

end ACB
